import Mathlib

/-!
Verification of the shared-MCDMA reset coordination state machine in
drivers/net/ethernet/xilinx/xilinx_axienet_shared_mcdma.c.

Embedding conventions.

Instances (struct axienet_local) are identified by natural numbers.  The
module-level registry (the chain that starts at the static pointer `head`
and is threaded through the `next` fields) is embedded as the list of
identifiers reachable from `head`, in chain order.  The static counter
`axienet_local_count` is a separate field, exactly as in the source, so
that the model can express the counter and the chain disagreeing.  Each
instance's `state` field lives in a total map from identifiers to states
(an instance keeps a state field whether or not it is linked into the
chain, as in the C code).

A statement in C of the form `lp->next = NULL` is rendered on the chain
view as: if `lp` is linked, the chain is cut just after `lp` (everything
that followed `lp` becomes unreachable from `head`); if `lp` is not
linked, the chain is unchanged.

Hardware side effects (register writes that disable a DMA channel's
interrupts, and tasklet_schedule calls) are collected in an output list
of `SideEffect` values instead of being performed.
-/

/-- States of the per-instance state machine (enum in xilinx_axienet.h,
used throughout xilinx_axienet_shared_mcdma.c). -/
inductive MacState where
  | ST_UNLOADED
  | ST_LOADED
  | ST_OPENED
  | ST_ERROR
  | ST_CLOSED
  | ST_RESET
deriving DecidableEq, Repr

open MacState

/-- Events accepted by axienet_shared_mcdma_event. -/
inductive AxienetEvent where
  | EVT_MAC_OPEN_COMPLETE
  | EVT_DMA_ERROR_RESET_COMPLETE
  | EVT_MAC_CLOSED
  | EVT_DMA_ERROR
deriving DecidableEq, Repr

/-- Observable hardware actions performed by the coordination layer.
`disableChannelInterrupts m i` records one call of
axienet_disable_channel_interrupts on rx dma queue `i` of instance `m`
(the call clears the interrupt bits of both control registers of that
channel); `schedDmaErrTasklet m i` records tasklet_schedule on
`dma_err_tasklet[i]` of instance `m`. -/
inductive SideEffect where
  | disableChannelInterrupts (mac : Nat) (queue : Nat)
  | schedDmaErrTasklet (mac : Nat) (queue : Nat)
deriving DecidableEq, Repr

/-- The module-level mutable state of xilinx_axienet_shared_mcdma.c:
the chain reachable from `head` (field `regs`, in chain order), the
static counter `axienet_local_count` (field `count`), and every
instance's `state` field (field `st`). -/
structure SharedState where
  regs : List Nat
  count : Nat
  st : Nat → MacState

/-- Pointwise update of the state map: `lp->state = v`. -/
def setSt (st : Nat → MacState) (lp : Nat) (v : MacState) : Nat → MacState :=
  fun k => if k = lp then v else st k

/-- axienet_count_macs: returns the static counter. -/
def axienet_count_macs (s : SharedState) : Nat :=
  s.count

/-- axienet_all_macs_loaded: walks the chain and accumulates
`mac->state == ST_LOADED` over every linked instance. -/
def axienet_all_macs_loaded (st : Nat → MacState) : List Nat → Bool
  | [] => true
  | m :: ms => (st m == ST_LOADED) && axienet_all_macs_loaded st ms

/-- Side effects of the ST_OPENED arm of axienet_reset_other_mac: for
each rx dma queue `i` of `mac` (for_each_rx_dma_queue), disable the
channel interrupts of `dq[i]` and schedule `dma_err_tasklet[i]`.
`rxq mac` is the number of rx dma queues of instance `mac`. -/
def openedResetEffects (rxq : Nat → Nat) (mac : Nat) : List SideEffect :=
  (List.range (rxq mac)).flatMap fun i =>
    [SideEffect.disableChannelInterrupts mac i, SideEffect.schedDmaErrTasklet mac i]

/-- axienet_reset_other_mac: switch on `mac->state`.  UNLOADED, LOADED
and RESET: nothing.  OPENED: disable channel interrupts and schedule the
dma error tasklet for every rx dma queue, then `mac->state = ST_RESET`.
ERROR and CLOSED: `mac->state = ST_LOADED`. -/
def axienet_reset_other_mac (rxq : Nat → Nat) (mac : Nat) (s : SharedState) :
    SharedState × List SideEffect :=
  match s.st mac with
  | ST_UNLOADED => (s, [])
  | ST_LOADED => (s, [])
  | ST_OPENED =>
      ({ s with st := setSt s.st mac ST_RESET }, openedResetEffects rxq mac)
  | ST_ERROR => ({ s with st := setSt s.st mac ST_LOADED }, [])
  | ST_CLOSED => ({ s with st := setSt s.st mac ST_LOADED }, [])
  | ST_RESET => (s, [])

/-- Loop body of axienet_reset_all_other_macs: walk the given chain
suffix, applying axienet_reset_other_mac to every linked instance other
than `lp`, threading the state and concatenating the side effects in
chain order. -/
def resetOtherMacsOnChain (rxq : Nat → Nat) (lp : Nat) :
    List Nat → SharedState → SharedState × List SideEffect
  | [], s => (s, [])
  | m :: ms, s =>
      if m = lp then resetOtherMacsOnChain rxq lp ms s
      else
        let r := axienet_reset_other_mac rxq m s
        let r' := resetOtherMacsOnChain rxq lp ms r.1
        (r'.1, r.2 ++ r'.2)

/-- axienet_reset_all_other_macs: iterate the whole chain from `head`. -/
def axienet_reset_all_other_macs (rxq : Nat → Nat) (lp : Nat) (s : SharedState) :
    SharedState × List SideEffect :=
  resetOtherMacsOnChain rxq lp s.regs s

/-- Result of the scan loop `for(tail = &head; *tail != lp && *tail != NULL;
tail = &((*tail)->next));` — true iff the scan stopped at `lp` (i.e. `lp`
is linked in the chain), false iff it stopped at NULL. -/
def scanFound (lp : Nat) : List Nat → Bool
  | [] => false
  | m :: ms => if m = lp then true else scanFound lp ms

/-- Effect of `lp->next = NULL` on the chain: if `lp` is linked, the
chain is cut just after `lp`; otherwise the chain is unchanged. -/
def cutAfter (lp : Nat) : List Nat → List Nat
  | [] => []
  | m :: ms => if m = lp then [m] else m :: cutAfter lp ms

/-- Effect of the remove splice `*tail = lp->next` when the scan stopped
at `lp`: the first occurrence of `lp` is spliced out of the chain. -/
def spliceOut (lp : Nat) : List Nat → List Nat
  | [] => []
  | m :: ms => if m = lp then ms else m :: spliceOut lp ms

/-- axienet_shared_mcdma_mac_add: first `lp->next = NULL` (this happens
before the scan, and cuts the chain after `lp` when `lp` is already
linked), then under the lock scan for `lp`; if the scan stopped at NULL,
append `lp` at the tail, set `lp->state = ST_LOADED` and increment the
counter; otherwise do nothing further. -/
def axienet_shared_mcdma_mac_add (lp : Nat) (s : SharedState) : SharedState :=
  let regs1 := cutAfter lp s.regs
  if scanFound lp regs1 then
    { s with regs := regs1 }
  else
    { regs := regs1 ++ [lp], count := s.count + 1, st := setSt s.st lp ST_LOADED }

/-- axienet_shared_mcdma_mac_remove: under the lock scan for `lp`; if
found, splice it out (`*tail = lp->next`), clear `lp->next`, set
`lp->state = ST_UNLOADED` and decrement the counter; otherwise no-op. -/
def axienet_shared_mcdma_mac_remove (lp : Nat) (s : SharedState) : SharedState :=
  if scanFound lp s.regs then
    { regs := spliceOut lp s.regs, count := s.count - 1,
      st := setSt s.st lp ST_UNLOADED }
  else s

/-- axienet_shared_mcdma_event: switch on the event.
EVT_MAC_OPEN_COMPLETE and EVT_DMA_ERROR_RESET_COMPLETE set
`lp->state = ST_OPENED`; EVT_MAC_CLOSED sets `lp->state = ST_CLOSED`;
EVT_DMA_ERROR sets `lp->state = ST_ERROR` unless the current state is
ST_RESET, in which case the event is ignored. -/
def axienet_shared_mcdma_event (e : AxienetEvent) (lp : Nat) (s : SharedState) :
    SharedState :=
  match e with
  | AxienetEvent.EVT_MAC_OPEN_COMPLETE => { s with st := setSt s.st lp ST_OPENED }
  | AxienetEvent.EVT_DMA_ERROR_RESET_COMPLETE => { s with st := setSt s.st lp ST_OPENED }
  | AxienetEvent.EVT_MAC_CLOSED => { s with st := setSt s.st lp ST_CLOSED }
  | AxienetEvent.EVT_DMA_ERROR =>
      if s.st lp ≠ ST_RESET then { s with st := setSt s.st lp ST_ERROR } else s

/-- axienet_shared_mcdma_should_reset: if `axienet_count_macs() < 2`
return 1 immediately; otherwise, under the lock, switch on `lp->state`:
UNLOADED, OPENED, RESET deny; LOADED grants iff axienet_all_macs_loaded;
ERROR and CLOSED run axienet_reset_all_other_macs and grant.  The result
is the returned flag, the module state after the call, and the hardware
side effects performed. -/
def axienet_shared_mcdma_should_reset (rxq : Nat → Nat) (lp : Nat)
    (s : SharedState) : Bool × SharedState × List SideEffect :=
  if axienet_count_macs s < 2 then (true, s, [])
  else
    match s.st lp with
    | ST_UNLOADED => (false, s, [])
    | ST_LOADED => (axienet_all_macs_loaded s.st s.regs, s, [])
    | ST_OPENED => (false, s, [])
    | ST_ERROR =>
        let r := axienet_reset_all_other_macs rxq lp s
        (true, r.1, r.2)
    | ST_CLOSED =>
        let r := axienet_reset_all_other_macs rxq lp s
        (true, r.1, r.2)
    | ST_RESET => (false, s, [])

/-- Registry operations, for stating properties about sequences of
register/unregister calls. -/
inductive RegOp where
  | add (lp : Nat)
  | remove (lp : Nat)
deriving DecidableEq, Repr

/-- Apply one registry operation. -/
def applyRegOp (op : RegOp) (s : SharedState) : SharedState :=
  match op with
  | RegOp.add lp => axienet_shared_mcdma_mac_add lp s
  | RegOp.remove lp => axienet_shared_mcdma_mac_remove lp s

/-- Run a sequence of registry operations from left to right. -/
def runRegOps : List RegOp → SharedState → SharedState
  | [], s => s
  | op :: ops, s => runRegOps ops (applyRegOp op s)

/-- Module state at load time: empty chain, zero counter, every state
field at its zero-initialized value ST_UNLOADED. -/
def initState : SharedState :=
  ⟨[], 0, fun _ => ST_UNLOADED⟩

/-- Peer transition table applied by the arbiter to every other linked
instance (the state component of axienet_reset_other_mac): OPENED goes
to RESET, ERROR and CLOSED go to LOADED, everything else is unchanged. -/
def peerTransition : MacState → MacState
  | ST_OPENED => ST_RESET
  | ST_ERROR => ST_LOADED
  | ST_CLOSED => ST_LOADED
  | st => st

/-- One rx dma queue per instance, the simplest queue configuration used
in concrete scenarios. -/
def rxqOne : Nat → Nat := fun _ => 1

/-- Scenario: instance 0 registered, nothing else. -/
def oneLoaded : SharedState := runRegOps [RegOp.add 0] initState

/-- Scenario: instance 0 registered, then reported open-complete. -/
def oneOpened : SharedState :=
  axienet_shared_mcdma_event AxienetEvent.EVT_MAC_OPEN_COMPLETE 0 oneLoaded

/-- Scenario: instances 0 and 1 registered, both still LOADED. -/
def twoLoaded : SharedState := runRegOps [RegOp.add 0, RegOp.add 1] initState

/-- Scenario: instances 0 and 1 registered, instance 0 reported
open-complete. -/
def twoOneOpened : SharedState :=
  axienet_shared_mcdma_event AxienetEvent.EVT_MAC_OPEN_COMPLETE 0 twoLoaded

/-- Scenario: four registered instances, caller 0 in ERROR and one peer
in each of the interesting states OPENED, CLOSED, LOADED. -/
def fourMixed : SharedState :=
  ⟨[0, 1, 2, 3], 4, fun k =>
    if k = 0 then ST_ERROR
    else if k = 1 then ST_OPENED
    else if k = 2 then ST_CLOSED
    else if k = 3 then ST_LOADED
    else ST_UNLOADED⟩

/-- Scenario: two registered instances, instance 0 parked in RESET by a
peer arbitration, instance 1 still LOADED. -/
def oneReset : SharedState :=
  ⟨[0, 1], 2, fun k => if k = 0 then ST_RESET else ST_LOADED⟩

lemma peerTransition_idem (v : MacState) :
    peerTransition (peerTransition v) = peerTransition v := by
  cases v <;> rfl

lemma setSt_same (st : Nat → MacState) (lp : Nat) (v : MacState) :
    setSt st lp v lp = v := by
  simp [setSt]

lemma setSt_other (st : Nat → MacState) (lp k : Nat) (v : MacState)
    (h : k ≠ lp) : setSt st lp v k = st k := by
  simp [setSt, h]

lemma reset_other_mac_regs (rxq : Nat → Nat) (m : Nat) (s : SharedState) :
    (axienet_reset_other_mac rxq m s).1.regs = s.regs := by
  unfold axienet_reset_other_mac
  cases h : s.st m <;> rfl

lemma reset_other_mac_count (rxq : Nat → Nat) (m : Nat) (s : SharedState) :
    (axienet_reset_other_mac rxq m s).1.count = s.count := by
  unfold axienet_reset_other_mac
  cases h : s.st m <;> rfl

lemma reset_other_mac_st (rxq : Nat → Nat) (m : Nat) (s : SharedState) (k : Nat) :
    (axienet_reset_other_mac rxq m s).1.st k =
      if k = m then peerTransition (s.st m) else s.st k := by
  unfold axienet_reset_other_mac
  by_cases hk : k = m
  · subst hk
    cases h : s.st k <;> simp [h, peerTransition, setSt]
  · cases h : s.st m <;> simp [hk, peerTransition, setSt_other _ _ _ _ hk]

lemma reset_other_mac_effects (rxq : Nat → Nat) (m : Nat) (s : SharedState) :
    (axienet_reset_other_mac rxq m s).2 =
      if s.st m = ST_OPENED then openedResetEffects rxq m else [] := by
  unfold axienet_reset_other_mac
  cases h : s.st m <;> simp

lemma chain_regs (rxq : Nat → Nat) (lp : Nat) (ms : List Nat) (s : SharedState) :
    (resetOtherMacsOnChain rxq lp ms s).1.regs = s.regs := by
  induction ms generalizing s with
  | nil => rfl
  | cons m ms ih =>
    by_cases hm : m = lp
    · simp [resetOtherMacsOnChain, hm, ih]
    · simp [resetOtherMacsOnChain, hm, ih, reset_other_mac_regs]

lemma chain_count (rxq : Nat → Nat) (lp : Nat) (ms : List Nat) (s : SharedState) :
    (resetOtherMacsOnChain rxq lp ms s).1.count = s.count := by
  induction ms generalizing s with
  | nil => rfl
  | cons m ms ih =>
    by_cases hm : m = lp
    · simp [resetOtherMacsOnChain, hm, ih]
    · simp [resetOtherMacsOnChain, hm, ih, reset_other_mac_count]

lemma chain_st (rxq : Nat → Nat) (lp : Nat) (ms : List Nat) (s : SharedState)
    (k : Nat) :
    (resetOtherMacsOnChain rxq lp ms s).1.st k =
      if k ∈ ms ∧ k ≠ lp then peerTransition (s.st k) else s.st k := by
  induction ms generalizing s with
  | nil => simp [resetOtherMacsOnChain]
  | cons m ms ih =>
    by_cases hm : m = lp
    · simp only [resetOtherMacsOnChain, if_pos hm, ih]
      rw [hm]
      by_cases hk : k = lp
      · simp [hk]
      · simp [List.mem_cons, hk]
    · simp only [resetOtherMacsOnChain, if_neg hm, ih, reset_other_mac_st]
      by_cases hk : k = m
      · subst hk
        by_cases hks : k ∈ ms
        · simp [hks, hm, List.mem_cons, peerTransition_idem]
        · simp [hks, hm, List.mem_cons]
      · simp [List.mem_cons, hk]

lemma chain_effects (rxq : Nat → Nat) (lp : Nat) (ms : List Nat) (s : SharedState)
    (hnd : ms.Nodup) :
    (resetOtherMacsOnChain rxq lp ms s).2 =
      (ms.filter fun m => m != lp).flatMap
        (fun m => if s.st m = ST_OPENED then openedResetEffects rxq m else []) := by
  induction ms generalizing s with
  | nil => simp [resetOtherMacsOnChain]
  | cons m ms ih =>
    have hmem : m ∉ ms := (List.nodup_cons.mp hnd).1
    have hnd' : ms.Nodup := (List.nodup_cons.mp hnd).2
    by_cases hm : m = lp
    · simp only [resetOtherMacsOnChain, if_pos hm, ih _ hnd']
      simp [List.filter_cons, hm]
    · simp only [resetOtherMacsOnChain, if_neg hm, ih _ hnd', reset_other_mac_effects]
      rw [List.flatMap_congr (g := fun k =>
            if s.st k = ST_OPENED then openedResetEffects rxq k else [])
          (fun x hx => by
            have hxm : x ≠ m := fun he => hmem (he ▸ List.mem_of_mem_filter hx)
            rw [reset_other_mac_st, if_neg hxm])]
      simp [List.filter_cons, hm]

lemma all_macs_loaded_iff (st : Nat → MacState) (l : List Nat) :
    axienet_all_macs_loaded st l = true ↔ ∀ m ∈ l, st m = ST_LOADED := by
  induction l with
  | nil => simp [axienet_all_macs_loaded]
  | cons m ms ih => simp [axienet_all_macs_loaded, ih]

lemma scanFound_eq_true_iff (lp : Nat) (l : List Nat) :
    scanFound lp l = true ↔ lp ∈ l := by
  induction l with
  | nil => simp [scanFound]
  | cons m ms ih =>
    by_cases h : m = lp
    · simp [scanFound, h]
    · simp [scanFound, h, ih, List.mem_cons, Ne.symm h]

lemma spliceOut_eq_erase (lp : Nat) (l : List Nat) :
    spliceOut lp l = l.erase lp := by
  induction l with
  | nil => rfl
  | cons m ms ih =>
    by_cases h : m = lp
    · simp [spliceOut, h, List.erase_cons]
    · simp [spliceOut, h, List.erase_cons, ih]

lemma cutAfter_of_not_mem (lp : Nat) (l : List Nat) (h : lp ∉ l) :
    cutAfter lp l = l := by
  induction l with
  | nil => rfl
  | cons m ms ih =>
    have h1 : m ≠ lp := fun he => h (he ▸ List.mem_cons_self m ms)
    have h2 : lp ∉ ms := fun he => h (List.mem_cons_of_mem m he)
    simp [cutAfter, h1, ih h2]

/-- C5: whenever the registered-instance counter is below two,
axienet_shared_mcdma_should_reset returns true, regardless of the
queried instance's state and of the registry contents. -/
theorem C5_single_instance_always_grants (rxq : Nat → Nat) (lp : Nat)
    (s : SharedState) (h : axienet_count_macs s < 2) :
    (axienet_shared_mcdma_should_reset rxq lp s).1 = true := by
  simp [axienet_shared_mcdma_should_reset, h]

theorem C5_single_instance_always_grants_witness :
    axienet_count_macs oneOpened < 2 ∧
    (axienet_shared_mcdma_should_reset rxqOne 0 oneOpened).1 = true :=
  ⟨by decide, C5_single_instance_always_grants rxqOne 0 oneOpened (by decide)⟩

/-- C10: axienet_shared_mcdma_should_reset never changes the state field
of the instance it is called on, in any registry configuration and from
any caller state. -/
theorem C10_should_reset_preserves_caller_state (rxq : Nat → Nat) (lp : Nat)
    (s : SharedState) :
    (axienet_shared_mcdma_should_reset rxq lp s).2.1.st lp = s.st lp := by
  unfold axienet_shared_mcdma_should_reset
  by_cases h : axienet_count_macs s < 2
  · simp [h]
  · simp only [if_neg h]
    cases hst : s.st lp <;>
      simp [hst, axienet_reset_all_other_macs, chain_st]

/-- C7: a dma-error event reported while the instance is in RESET leaves
the whole module state unchanged (the event is ignored); reported from
any other state it sets the instance's state to ERROR. -/
theorem C7_dma_error_transition (lp : Nat) (s : SharedState) :
    (s.st lp = ST_RESET →
      axienet_shared_mcdma_event AxienetEvent.EVT_DMA_ERROR lp s = s) ∧
    (s.st lp ≠ ST_RESET →
      (axienet_shared_mcdma_event AxienetEvent.EVT_DMA_ERROR lp s).st lp = ST_ERROR) := by
  constructor
  · intro h
    simp [axienet_shared_mcdma_event, h]
  · intro h
    simp [axienet_shared_mcdma_event, h, setSt_same]

theorem C7_dma_error_transition_witness :
    oneReset.st 0 = ST_RESET ∧
    axienet_shared_mcdma_event AxienetEvent.EVT_DMA_ERROR 0 oneReset = oneReset ∧
    twoLoaded.st 1 ≠ ST_RESET ∧
    (axienet_shared_mcdma_event AxienetEvent.EVT_DMA_ERROR 1 twoLoaded).st 1 = ST_ERROR :=
  ⟨by decide, (C7_dma_error_transition 0 oneReset).1 (by decide), by decide,
   (C7_dma_error_transition 1 twoLoaded).2 (by decide)⟩

/-- C1 as stated is false on the code: with instances 0 and 1 both
registered and LOADED, should_reset on instance 0 returns true and
leaves the module state unchanged (instance 0 is still LOADED), and the
subsequent should_reset on instance 1 also returns true, where the claim
says it returns false. -/
theorem C1_loaded_second_call_counterexample :
    (axienet_shared_mcdma_should_reset rxqOne 0 twoLoaded).1 = true ∧
    (axienet_shared_mcdma_should_reset rxqOne 0 twoLoaded).2.1 = twoLoaded ∧
    (axienet_shared_mcdma_should_reset rxqOne 1
        (axienet_shared_mcdma_should_reset rxqOne 0 twoLoaded).2.1).1 = true :=
  ⟨by decide, rfl, by decide⟩

/-- C1 amended: with the counter at two or more, should_reset called on
an instance in LOADED returns true iff every linked instance is in
LOADED, mutates nothing and performs no hardware action; consequently a
subsequent call on a second LOADED instance returns true as well. -/
theorem C1_loaded_grant_iff_all_loaded (rxq : Nat → Nat) (lp : Nat)
    (s : SharedState) (h2 : 2 ≤ axienet_count_macs s)
    (hL : s.st lp = ST_LOADED) :
    ((axienet_shared_mcdma_should_reset rxq lp s).1 = true ↔
      ∀ m ∈ s.regs, s.st m = ST_LOADED) ∧
    (axienet_shared_mcdma_should_reset rxq lp s).2.1 = s ∧
    (axienet_shared_mcdma_should_reset rxq lp s).2.2 = [] := by
  have hlt : ¬ axienet_count_macs s < 2 := by omega
  unfold axienet_shared_mcdma_should_reset
  rw [if_neg hlt, hL]
  exact ⟨all_macs_loaded_iff s.st s.regs, rfl, rfl⟩

theorem C1_loaded_grant_iff_all_loaded_witness :
    2 ≤ axienet_count_macs twoLoaded ∧ twoLoaded.st 0 = ST_LOADED ∧
    ((axienet_shared_mcdma_should_reset rxqOne 0 twoLoaded).1 = true ↔
      ∀ m ∈ twoLoaded.regs, twoLoaded.st m = ST_LOADED) :=
  ⟨by decide, by decide,
   (C1_loaded_grant_iff_all_loaded rxqOne 0 twoLoaded (by decide) (by decide)).1⟩

/-- C6 as stated is false on the code: with a single registered instance
in OPENED, should_reset returns true (the counter short-circuit runs
before the state switch). -/
theorem C6_opened_counterexample :
    axienet_count_macs oneOpened = 1 ∧ oneOpened.st 0 = ST_OPENED ∧
    (axienet_shared_mcdma_should_reset rxqOne 0 oneOpened).1 = true := by
  exact ⟨by decide, by decide, by decide⟩

/-- C6 amended: with the counter at two or more, should_reset called on
an instance in OPENED returns false and mutates nothing. -/
theorem C6_opened_denies_with_two_registered (rxq : Nat → Nat) (lp : Nat)
    (s : SharedState) (h2 : 2 ≤ axienet_count_macs s)
    (hO : s.st lp = ST_OPENED) :
    (axienet_shared_mcdma_should_reset rxq lp s).1 = false ∧
    (axienet_shared_mcdma_should_reset rxq lp s).2.1 = s := by
  have hlt : ¬ axienet_count_macs s < 2 := by omega
  unfold axienet_shared_mcdma_should_reset
  rw [if_neg hlt, hO]
  exact ⟨rfl, rfl⟩

theorem C6_opened_denies_with_two_registered_witness :
    2 ≤ axienet_count_macs twoOneOpened ∧ twoOneOpened.st 0 = ST_OPENED ∧
    (axienet_shared_mcdma_should_reset rxqOne 0 twoOneOpened).1 = false :=
  ⟨by decide, by decide,
   (C6_opened_denies_with_two_registered rxqOne 0 twoOneOpened
     (by decide) (by decide)).1⟩

/-- C8 as stated is false on the code: with one registered instance, a
should_reset query on the absent instance 5 returns true (the counter
short-circuit grants before any registry lookup), where the claim says
an absent instance is always denied. -/
theorem C8_absent_counterexample :
    oneLoaded.regs = [0] ∧
    (axienet_shared_mcdma_should_reset rxqOne 5 oneLoaded).1 = true := by
  exact ⟨by decide, by decide⟩

/-- C8 amended: with the counter at two or more, a should_reset query on
an instance absent from the chain whose state field is UNLOADED (the
value unregister leaves behind and the zero-initialized default) returns
false, mutates nothing and performs no hardware action; with the counter
below two it returns true even for an absent instance. -/
theorem C8_absent_unloaded_denies (rxq : Nat → Nat) (lp : Nat)
    (s : SharedState) (h2 : 2 ≤ axienet_count_macs s) (_habs : lp ∉ s.regs)
    (hU : s.st lp = ST_UNLOADED) :
    (axienet_shared_mcdma_should_reset rxq lp s).1 = false ∧
    (axienet_shared_mcdma_should_reset rxq lp s).2.1 = s ∧
    (axienet_shared_mcdma_should_reset rxq lp s).2.2 = [] := by
  have hlt : ¬ axienet_count_macs s < 2 := by omega
  unfold axienet_shared_mcdma_should_reset
  rw [if_neg hlt, hU]
  exact ⟨rfl, rfl, rfl⟩

theorem C8_absent_unloaded_denies_witness :
    2 ≤ axienet_count_macs twoLoaded ∧ 5 ∉ twoLoaded.regs ∧
    twoLoaded.st 5 = ST_UNLOADED ∧
    (axienet_shared_mcdma_should_reset rxqOne 5 twoLoaded).1 = false :=
  ⟨by decide, by decide, by decide,
   (C8_absent_unloaded_denies rxqOne 5 twoLoaded (by decide) (by decide)
     (by decide)).1⟩

/-- C2: with the counter at two or more and a duplicate-free chain,
should_reset called on an instance in ERROR or CLOSED returns true; the
chain and the counter are unchanged; every linked instance other than
the caller moves by the peer transition table (OPENED to RESET, ERROR
and CLOSED to LOADED, UNLOADED, LOADED and RESET unchanged) while every
other state field, the caller's included, is untouched; and the hardware
actions performed are exactly, in chain order, for each linked peer in
OPENED and each of its rx dma queues, one interrupt disable and one dma
error tasklet schedule. -/
theorem C2_error_closed_grants_and_recovers_peers (rxq : Nat → Nat) (lp : Nat)
    (s : SharedState) (h2 : 2 ≤ axienet_count_macs s) (hnd : s.regs.Nodup)
    (hE : s.st lp = ST_ERROR ∨ s.st lp = ST_CLOSED) :
    (axienet_shared_mcdma_should_reset rxq lp s).1 = true ∧
    (axienet_shared_mcdma_should_reset rxq lp s).2.1.regs = s.regs ∧
    (axienet_shared_mcdma_should_reset rxq lp s).2.1.count = s.count ∧
    (∀ k, (axienet_shared_mcdma_should_reset rxq lp s).2.1.st k =
      if k ∈ s.regs ∧ k ≠ lp then peerTransition (s.st k) else s.st k) ∧
    (axienet_shared_mcdma_should_reset rxq lp s).2.2 =
      (s.regs.filter fun m => m != lp).flatMap
        (fun m => if s.st m = ST_OPENED then openedResetEffects rxq m else []) := by
  have hlt : ¬ axienet_count_macs s < 2 := by omega
  have key : axienet_shared_mcdma_should_reset rxq lp s =
      (true, (axienet_reset_all_other_macs rxq lp s).1,
        (axienet_reset_all_other_macs rxq lp s).2) := by
    unfold axienet_shared_mcdma_should_reset
    rw [if_neg hlt]
    rcases hE with h | h <;> rw [h]
  rw [key]
  refine ⟨rfl, ?_, ?_, ?_, ?_⟩
  · exact chain_regs rxq lp s.regs s
  · exact chain_count rxq lp s.regs s
  · intro k
    exact chain_st rxq lp s.regs s k
  · exact chain_effects rxq lp s.regs s hnd

theorem C2_error_closed_grants_and_recovers_peers_witness :
    2 ≤ axienet_count_macs fourMixed ∧ fourMixed.regs.Nodup ∧
    fourMixed.st 0 = ST_ERROR ∧
    (axienet_shared_mcdma_should_reset rxqOne 0 fourMixed).1 = true ∧
    (axienet_shared_mcdma_should_reset rxqOne 0 fourMixed).2.1.st 0 = ST_ERROR ∧
    (axienet_shared_mcdma_should_reset rxqOne 0 fourMixed).2.1.st 1 = ST_RESET ∧
    (axienet_shared_mcdma_should_reset rxqOne 0 fourMixed).2.1.st 2 = ST_LOADED ∧
    (axienet_shared_mcdma_should_reset rxqOne 0 fourMixed).2.1.st 3 = ST_LOADED ∧
    (axienet_shared_mcdma_should_reset rxqOne 0 fourMixed).2.2 =
      [SideEffect.disableChannelInterrupts 1 0, SideEffect.schedDmaErrTasklet 1 0] := by
  have h := C2_error_closed_grants_and_recovers_peers rxqOne 0 fourMixed
    (by decide) (by decide) (Or.inl (by decide))
  refine ⟨by decide, by decide, by decide, h.1, ?_, ?_, ?_, ?_, ?_⟩
  · rw [h.2.2.2.1 0]
    decide
  · rw [h.2.2.2.1 1]
    decide
  · rw [h.2.2.2.1 2]
    decide
  · rw [h.2.2.2.1 3]
    decide
  · rw [h.2.2.2.2]
    decide

/-- C9: unregistering a linked instance splices exactly its one
occurrence out of the chain (the others keep their order), sets its
state field to UNLOADED, leaves every other state field unchanged and
decrements the counter; unregistering an instance that is not linked
changes nothing at all. -/
theorem C9_mac_remove_spec (lp : Nat) (s : SharedState) :
    (lp ∈ s.regs →
      (axienet_shared_mcdma_mac_remove lp s).regs = s.regs.erase lp ∧
      (axienet_shared_mcdma_mac_remove lp s).st lp = ST_UNLOADED ∧
      (∀ k, k ≠ lp → (axienet_shared_mcdma_mac_remove lp s).st k = s.st k) ∧
      (axienet_shared_mcdma_mac_remove lp s).count = s.count - 1) ∧
    (lp ∉ s.regs → axienet_shared_mcdma_mac_remove lp s = s) := by
  constructor
  · intro hmem
    have hf : scanFound lp s.regs = true := (scanFound_eq_true_iff lp s.regs).mpr hmem
    unfold axienet_shared_mcdma_mac_remove
    rw [if_pos hf]
    exact ⟨spliceOut_eq_erase lp s.regs, setSt_same _ _ _,
      fun k hk => setSt_other _ _ _ _ hk, rfl⟩
  · intro hmem
    have hf : ¬ (scanFound lp s.regs = true) :=
      fun h => hmem ((scanFound_eq_true_iff lp s.regs).mp h)
    unfold axienet_shared_mcdma_mac_remove
    rw [if_neg hf]

theorem C9_mac_remove_spec_witness :
    0 ∈ twoLoaded.regs ∧
    (axienet_shared_mcdma_mac_remove 0 twoLoaded).regs = twoLoaded.regs.erase 0 ∧
    (axienet_shared_mcdma_mac_remove 0 twoLoaded).st 0 = ST_UNLOADED ∧
    (axienet_shared_mcdma_mac_remove 0 twoLoaded).st 1 = twoLoaded.st 1 ∧
    (axienet_shared_mcdma_mac_remove 0 twoLoaded).count = twoLoaded.count - 1 ∧
    axienet_shared_mcdma_mac_remove 5 twoLoaded = twoLoaded := by
  have h0 := (C9_mac_remove_spec 0 twoLoaded).1 (by decide)
  exact ⟨by decide, h0.1, h0.2.1, h0.2.2.1 1 (by decide), h0.2.2.2,
    (C9_mac_remove_spec 5 twoLoaded).2 (by decide)⟩

/-- C3 fails on the code: after register 0, register 1, register 0, the
unconditional `lp->next = NULL` at the top of mac_add cuts instance 1
out of the chain while the counter is not decremented, so the chain
holds one instance but the counter reports two. -/
theorem C3_registry_counter_divergence :
    (runRegOps [RegOp.add 0, RegOp.add 1, RegOp.add 0] initState).regs = [0] ∧
    (runRegOps [RegOp.add 0, RegOp.add 1, RegOp.add 0] initState).count = 2 := by
  decide

/-- C4 fails on the code: re-registering instance 0 while the chain is
[0, 1] is not a no-op — `lp->next = NULL` truncates the chain to [0]
(the counter stays 2, so the registry is left inconsistent). -/
theorem C4_reregister_truncates_chain :
    twoLoaded.regs = [0, 1] ∧
    (axienet_shared_mcdma_mac_add 0 twoLoaded).regs = [0] ∧
    (axienet_shared_mcdma_mac_add 0 twoLoaded).count = 2 := by
  decide
